import Mathlib

/-!
Shallow embedding of the convoy-go webhook client (src/convoy.go).

The client translates typed method calls into HTTP requests and decodes JSON
responses.  We embed each operation as a pure request-builder plus a pure
response handler; the network is an explicit oracle function, and the
side-effecting `CreateEvent` additionally produces a trace of effects so that
"no network call" and "body read exactly once" are provable statements.

Machinery from the Go standard library that the client relies on is modelled
explicitly: `encoding/json` rendering and a small JSON text parser,
`net/textproto`'s canonical MIME header keys with `http.Header.Set`,
`net/url`'s `Values.Encode` with query escaping, and `strconv.FormatInt`
base 10 (Lean's `toString` on `Int` agrees with it).
-/

namespace Convoy

/-- JSON values, the model of `encoding/json` data.  Numbers are modelled as
integers (the client never sends or receives fractional numbers). -/
inductive Json where
  | null : Json
  | bool : Bool → Json
  | num : Int → Json
  | str : String → Json
  | arr : List Json → Json
  | obj : List (String × Json) → Json
deriving Repr

/-- Hex digit (uppercase) for a value below 16. -/
def hexDigit (n : Nat) : Char :=
  if n < 10 then Char.ofNat (48 + n) else Char.ofNat (55 + n)

/-- Two lowercase hex digits, used by the JSON `\u00XX` escapes. -/
def hexLower (n : Nat) : Char :=
  if n < 10 then Char.ofNat (48 + n) else Char.ofNat (87 + n)

/-- Escape of a single character inside a JSON string, after
`encoding/json`: quotes, backslashes and control characters are escaped, and
the HTML-sensitive characters are escaped as `\u00XX` sequences. -/
def escapeJsonChar (c : Char) : String :=
  if c = Char.ofNat 34 then "\\\""
  else if c = Char.ofNat 92 then "\\\\"
  else if c = Char.ofNat 10 then "\\n"
  else if c = Char.ofNat 13 then "\\r"
  else if c = Char.ofNat 9 then "\\t"
  else if c = Char.ofNat 60 then "\\u003c"
  else if c = Char.ofNat 62 then "\\u003e"
  else if c = Char.ofNat 38 then "\\u0026"
  else if c.toNat < 32 then
    String.mk [Char.ofNat 92, Char.ofNat 117, Char.ofNat 48, Char.ofNat 48,
      hexLower (c.toNat / 16), hexLower (c.toNat % 16)]
  else String.singleton c

/-- Render a string as a JSON string literal. -/
def renderJsonString (s : String) : String :=
  "\"" ++ String.join (s.toList.map escapeJsonChar) ++ "\""

mutual

/-- Render a JSON value as text, after `encoding/json.Marshal`. -/
def jsonRender : Json → String
  | .null => "null"
  | .bool true => "true"
  | .bool false => "false"
  | .num n => toString n
  | .str s => renderJsonString s
  | .arr xs => "[" ++ jsonRenderElems xs ++ "]"
  | .obj fs => "\x7b" ++ jsonRenderFields fs ++ "\x7d"

/-- Render the comma-separated elements of a JSON array. -/
def jsonRenderElems : List Json → String
  | [] => ""
  | [x] => jsonRender x
  | x :: y :: xs => jsonRender x ++ "," ++ jsonRenderElems (y :: xs)

/-- Render the comma-separated members of a JSON object. -/
def jsonRenderFields : List (String × Json) → String
  | [] => ""
  | [kv] => renderJsonString kv.1 ++ ":" ++ jsonRender kv.2
  | kv :: kw :: fs =>
      renderJsonString kv.1 ++ ":" ++ jsonRender kv.2 ++ "," ++
        jsonRenderFields (kw :: fs)

end

/-- Left brace character, written by code point to keep it out of string
literals. -/
def lbrace : Char := Char.ofNat 123

/-- Right brace character. -/
def rbrace : Char := Char.ofNat 125

/-- Skip JSON whitespace. -/
def skipWs : List Char → List Char
  | [] => []
  | c :: cs =>
      if c = ' ' ∨ c = Char.ofNat 10 ∨ c = Char.ofNat 9 ∨ c = Char.ofNat 13 then
        skipWs cs
      else c :: cs

/-- Parse the characters of a JSON string after the opening quote, handling
the simple escapes; returns the decoded characters and the rest of the
input. -/
def parseStringChars : List Char → Option (List Char × List Char)
  | [] => none
  | c :: cs =>
      if c = Char.ofNat 34 then some ([], cs)
      else if c = Char.ofNat 92 then
        match cs with
        | [] => none
        | e :: rest =>
            match
              (if e = Char.ofNat 34 then some (Char.ofNat 34)
               else if e = Char.ofNat 92 then some (Char.ofNat 92)
               else if e = Char.ofNat 47 then some (Char.ofNat 47)
               else if e = 'n' then some (Char.ofNat 10)
               else if e = 't' then some (Char.ofNat 9)
               else if e = 'r' then some (Char.ofNat 13)
               else none) with
            | none => none
            | some d =>
                match parseStringChars rest with
                | none => none
                | some (ds, r) => some (d :: ds, r)
      else
        match parseStringChars cs with
        | none => none
        | some (ds, r) => some (c :: ds, r)

/-- Digits to a natural number, most significant first. -/
def digitsToNat (ds : List Char) : Nat :=
  ds.foldl (fun acc c => acc * 10 + (c.toNat - 48)) 0

mutual

/-- Fuel-indexed parser for one JSON value; returns the value and the rest of
the input. -/
def parseValue : Nat → List Char → Option (Json × List Char)
  | 0, _ => none
  | fuel + 1, input =>
    match skipWs input with
    | [] => none
    | c :: cs =>
        if c = Char.ofNat 34 then
          match parseStringChars cs with
          | none => none
          | some (ds, r) => some (.str (String.mk ds), r)
        else if c = lbrace then
          match skipWs cs with
          | [] => none
          | d :: ds =>
              if d = rbrace then some (.obj [], ds)
              else parseMembers fuel (d :: ds)
        else if c = '[' then
          match skipWs cs with
          | [] => none
          | d :: ds =>
              if d = ']' then some (.arr [], ds)
              else parseElems fuel (d :: ds)
        else if c = 't' then
          match cs with
          | 'r' :: 'u' :: 'e' :: r => some (.bool true, r)
          | _ => none
        else if c = 'f' then
          match cs with
          | 'a' :: 'l' :: 's' :: 'e' :: r => some (.bool false, r)
          | _ => none
        else if c = 'n' then
          match cs with
          | 'u' :: 'l' :: 'l' :: r => some (.null, r)
          | _ => none
        else if c = '-' then
          match cs.span (fun d => d.isDigit) with
          | ([], _) => none
          | (ds, r) => some (.num (-(digitsToNat ds : Int)), r)
        else if c.isDigit then
          match (c :: cs).span (fun d => d.isDigit) with
          | (ds, r) => some (.num (digitsToNat ds : Int), r)
        else none

/-- Parse the members of a JSON object, positioned at the first key. -/
def parseMembers : Nat → List Char → Option (Json × List Char)
  | 0, _ => none
  | fuel + 1, input =>
    match skipWs input with
    | [] => none
    | c :: cs =>
        if c = Char.ofNat 34 then
          match parseStringChars cs with
          | none => none
          | some (kds, r1) =>
              match skipWs r1 with
              | ':' :: r2 =>
                  match parseValue fuel r2 with
                  | none => none
                  | some (v, r3) =>
                      match skipWs r3 with
                      | ',' :: r4 =>
                          match parseMembers fuel r4 with
                          | some (.obj fs, r5) =>
                              some (.obj ((String.mk kds, v) :: fs), r5)
                          | _ => none
                      | d :: r4 =>
                          if d = rbrace then
                            some (.obj [(String.mk kds, v)], r4)
                          else none
                      | [] => none
              | _ => none
        else none

/-- Parse the elements of a JSON array, positioned at the first element. -/
def parseElems : Nat → List Char → Option (Json × List Char)
  | 0, _ => none
  | fuel + 1, input =>
    match parseValue fuel input with
    | none => none
    | some (v, r1) =>
        match skipWs r1 with
        | ',' :: r2 =>
            match parseElems fuel r2 with
            | some (.arr xs, r3) => some (.arr (v :: xs), r3)
            | _ => none
        | ']' :: r2 => some (.arr [v], r2)
        | _ => none

end

/-- Parse one JSON value from a string, ignoring trailing input (as
`json.Decoder.Decode` reads a single value from the stream). -/
def parseJsonString (s : String) : Option Json :=
  match parseValue (s.length + 1) s.toList with
  | none => none
  | some (v, _) => some v

/-! ## HTTP headers (`net/http.Header` over `net/textproto`) -/

/-- `http.Header` is `map[string][]string`; we model the map as an
association list with no duplicate keys maintained by `Header.set`. -/
abbrev Header := List (String × List String)

/-- Whether a character may appear in a MIME header token
(`net/textproto.validHeaderFieldByte`). -/
def isTokenChar (c : Char) : Bool :=
  c.isAlphanum ||
    c = '!' || c = '#' || c = '$' || c = '%' || c = '&' || c = Char.ofNat 39 ||
    c = '*' || c = '+' || c = '-' || c = '.' || c = '^' || c = '_' ||
    c = Char.ofNat 96 || c = '|' || c = '~'

/-- Canonicalize one character given whether it follows a hyphen (or starts
the key). -/
def canonChar (upper : Bool) (c : Char) : Char :=
  if upper ∧ 'a' ≤ c ∧ c ≤ 'z' then Char.ofNat (c.toNat - 32)
  else if ¬ upper ∧ 'A' ≤ c ∧ c ≤ 'Z' then Char.ofNat (c.toNat + 32)
  else c

/-- `textproto.CanonicalMIMEHeaderKey`: uppercase the first letter and every
letter after a hyphen, lowercase the rest; keys with invalid characters are
left unchanged. -/
def canonicalMIMEHeaderKey (s : String) : String :=
  if s.toList.all isTokenChar then
    String.mk
      (s.toList.foldl
        (fun acc c => (acc.1 ++ [canonChar acc.2 c], c = '-'))
        (([] : List Char), true)).1
  else s

/-- `http.Header.Set`: canonicalize the key and replace its entry with the
single value `v` (map update; in the association list, drop every entry for
that key and prepend the new one). -/
def Header.set (h : Header) (k v : String) : Header :=
  let ck := canonicalMIMEHeaderKey k
  (ck, [v]) :: h.filter (fun p => ¬ (p.1 = ck))

/-- `http.Header.Values`: canonicalize the key and look up its value list
(empty when absent). -/
def Header.values (h : Header) (k : String) : List String :=
  let ck := canonicalMIMEHeaderKey k
  match h.find? (fun p => p.1 = ck) with
  | some p => p.2
  | none => []

/-! ## Query encoding (`net/url`) -/

/-- Percent-escape of one byte for `url.QueryEscape`: unreserved bytes pass
through, space becomes `+`, everything else becomes `%XX`. -/
def queryEscapeByte (b : Nat) : List Char :=
  if (48 ≤ b ∧ b ≤ 57) ∨ (65 ≤ b ∧ b ≤ 90) ∨ (97 ≤ b ∧ b ≤ 122) ∨
      b = 45 ∨ b = 95 ∨ b = 46 ∨ b = 126 then
    [Char.ofNat b]
  else if b = 32 then ['+']
  else ['%', hexDigit (b / 16 % 16), hexDigit (b % 16)]

/-- The UTF-8 bytes of a character. -/
def utf8Bytes (c : Char) : List Nat :=
  let n := c.toNat
  if n < 128 then [n]
  else if n < 2048 then [192 + n / 64, 128 + n % 64]
  else if n < 65536 then [224 + n / 4096, 128 + n / 64 % 64, 128 + n % 64]
  else [240 + n / 262144, 128 + n / 4096 % 64, 128 + n / 64 % 64, 128 + n % 64]

/-- `url.QueryEscape`, applied byte-wise to the UTF-8 encoding. -/
def queryEscape (s : String) : String :=
  String.mk (((s.toList.map utf8Bytes).flatten).foldr
    (fun b acc => queryEscapeByte b ++ acc) [])

/-- Insert a string into a sorted list (ascending, as `sort.Strings`). -/
def insertStringSorted (x : String) : List String → List String
  | [] => [x]
  | y :: ys => if (compare x y).isLE then x :: y :: ys else y :: insertStringSorted x ys

/-- Sort strings ascending, as `url.Values.Encode` sorts the map keys. -/
def sortStrings : List String → List String
  | [] => []
  | x :: xs => insertStringSorted x (sortStrings xs)

/-- Join query fragments with `&`. -/
def joinAmp : List String → String
  | [] => ""
  | [s] => s
  | s :: t :: rest => s ++ "&" ++ joinAmp (t :: rest)

/-- Look up the value list of a key in a `url.Values` association list. -/
def valuesGet (vs : List (String × List String)) (k : String) : List String :=
  match vs.find? (fun p => p.1 = k) with
  | some p => p.2
  | none => []

/-- `url.Values.Encode`: keys sorted ascending, each value escaped,
`k=v` pairs joined with `&`. -/
def urlValuesEncode (vs : List (String × List String)) : String :=
  joinAmp
    (((sortStrings (vs.map Prod.fst)).map
      (fun k =>
        (valuesGet vs k).map (fun v => queryEscape k ++ "=" ++ queryEscape v))).flatten)

/-! ## Client data and errors -/

/-- The client's configuration (`webhookData` in the source): base URL and
API key. -/
structure webhookData where
  url : String
  key : String
deriving Repr, DecidableEq

/-- The errors a client call can return, one constructor per `error` value
the source constructs.  `GoError.message` renders each as the Go code
formats it. -/
inductive GoError where
  | statusCode (code : Nat)
  | decode (msg : String)
  | transport (msg : String)
  | undefinedPayload
  | eventStatus (code : Nat)
deriving Repr, DecidableEq

/-- The message text of each error, following the source's format strings:
`fmt.Errorf("response code %d invalid", ...)` and
`errors.New("error status code " + strconv.FormatInt(...))`. -/
def GoError.message : GoError → String
  | .statusCode c => "response code " ++ toString c ++ " invalid"
  | .decode m => m
  | .transport m => m
  | .undefinedPayload => "webhook data undefined"
  | .eventStatus c => "error status code " ++ toString c

/-- An outgoing HTTP request as the client builds it: method, URL string,
raw query (set separately, as `req.URL.RawQuery = query.Encode()`), header
map, and optional body bytes. -/
structure Request where
  method : String
  url : String
  rawQuery : String
  header : Header
  body : Option String
deriving Repr, DecidableEq

/-- An HTTP response for the operations that decode their body with a JSON
decoder: status code plus the body text (unreadable or malformed bodies are
body text that fails to parse). -/
structure HttpResponse where
  statusCode : Nat
  body : String
deriving Repr, DecidableEq

deriving instance DecidableEq for Except

/-- An HTTP response for `CreateEvent`, which reads the raw body with
`io.ReadAll`: the read itself may fail. -/
structure EventResponse where
  statusCode : Nat
  bodyRead : Except String String
deriving Repr, DecidableEq

/-! ## Response payload types (source structs; `time.Time` fields are
modelled as their RFC3339 string form, which no claim inspects) -/

/-- The anonymous `data` struct of `EndpointToggleStatus`. -/
structure EndpointToggleStatusData where
  Status : String
deriving Repr, DecidableEq

/-- `EndpointToggleStatus`. -/
structure EndpointToggleStatus where
  Data : EndpointToggleStatusData
deriving Repr, DecidableEq

/-- `EndpointResponse`. -/
structure EndpointResponse where
  Status : Bool
  Message : String
deriving Repr, DecidableEq

/-- The anonymous `data` struct of `CreateEndpointResponse`. -/
structure CreateEndpointResponseData where
  Uid : String
  Status : String
deriving Repr, DecidableEq

/-- `CreateEndpointResponse`. -/
structure CreateEndpointResponse where
  Status : Bool
  Message : String
  Data : CreateEndpointResponseData
deriving Repr, DecidableEq

/-- `UpsertEndpointParams`. -/
structure UpsertEndpointParams where
  Name : String
  URL : String
  AdvancedSignatures : Bool
  AppID : String
  Description : String
  HttpTimeout : Int
  IsDisabled : Bool
  OwnerID : String
  RateLimit : Int
  RateLimitDuration : Int
  Secret : String
  SlackWebhookURL : String
  SupportEmail : String
deriving Repr, DecidableEq

/-- `EndpointData` (timestamps as strings, `DeletedAt` optional). -/
structure EndpointData where
  SlackWebhookURL : String
  Status : String
  SupportEmail : String
  UID : String
  UpdatedAt : String
  URL : String
  CreatedAt : String
  DeletedAt : Option String
  Description : String
  Events : Int
  HttpTimeout : Int
  Name : String
  OwnerID : String
  ProjectID : String
  RateLimit : Int
  RateLimitDuration : Int
deriving Repr, DecidableEq

/-- `Endpoint`. -/
structure Endpoint where
  Message : String
  Status : Bool
  Data : EndpointData
deriving Repr, DecidableEq

/-- `WebhookData`: the wire payload of an event; its `Data` field is
arbitrary JSON (`interface\x7b\x7d` in the source). -/
structure WebhookData where
  Data : Json
  EventType : String
  EndpointID : String

/-- `Webhook`: the caller-facing event wrapper; `Headers` is a possibly-nil
map (`map[string][]string`). -/
structure Webhook where
  Data : WebhookData
  Headers : Option Header

/-- The anonymous `event_metadata` struct of `EventDeliveryContent`. -/
structure EventMetadataData where
  EventType : String
deriving Repr, DecidableEq

/-- The anonymous `metadata` struct of `EventDeliveryContent`. -/
structure EventDeliveryMetadata where
  NumTrials : Int
  RetryLimit : Int
deriving Repr, DecidableEq

/-- `EventDeliveryContent`. -/
structure EventDeliveryContent where
  CreatedAt : String
  Status : String
  EventMetadata : EventMetadataData
  Metadata : EventDeliveryMetadata
deriving Repr, DecidableEq

/-- The anonymous `data` struct of `EventDelivery`. -/
structure EventDeliveryData where
  Content : List EventDeliveryContent
deriving Repr, DecidableEq

/-- `EventDelivery`. -/
structure EventDelivery where
  Message : String
  Status : Bool
  Data : EventDeliveryData
deriving Repr, DecidableEq

/-! ## JSON decoding into the structs (`encoding/json.Unmarshal`
semantics: a JSON object assigns matching keys in order, later duplicates
overwriting; unknown keys are ignored; `null` leaves the current value;
a non-object where a struct is expected is an error) -/

/-- Decode a JSON value into a string field. -/
def decodeString (cur : String) : Json → Except String String
  | .str s => .ok s
  | .null => .ok cur
  | _ => .error "json: cannot unmarshal value into field of type string"

/-- Decode a JSON value into a bool field. -/
def decodeBool (cur : Bool) : Json → Except String Bool
  | .bool b => .ok b
  | .null => .ok cur
  | _ => .error "json: cannot unmarshal value into field of type bool"

/-- Decode a JSON value into an integer field. -/
def decodeInt (cur : Int) : Json → Except String Int
  | .num n => .ok n
  | .null => .ok cur
  | _ => .error "json: cannot unmarshal value into field of type int64"

/-- Decode a JSON value into a `*time.Time`-style optional string:
`null` sets the pointer to nil. -/
def decodeOptString (cur : Option String) : Json → Except String (Option String)
  | .str s => .ok (some s)
  | .null => .ok none
  | _ => (fun _ => .error "json: cannot unmarshal value into field of type *time.Time") cur

/-- Fold the members of a JSON object through a per-field step. -/
def decodeObj (j : Json) (init : α) (step : α → String × Json → Except String α) :
    Except String α :=
  match j with
  | .obj fs => fs.foldlM step init
  | .null => .ok init
  | _ => .error "json: cannot unmarshal value into struct"

/-- Decode the `data` struct of `EndpointToggleStatus`. -/
def decodeEndpointToggleStatusData (cur : EndpointToggleStatusData) (j : Json) :
    Except String EndpointToggleStatusData :=
  decodeObj j cur (fun s kv =>
    if kv.1 = "status" then do
      let v ← decodeString s.Status kv.2
      pure { s with Status := v }
    else pure s)

/-- Decode `EndpointToggleStatus`. -/
def decodeEndpointToggleStatus (j : Json) : Except String EndpointToggleStatus :=
  decodeObj j { Data := { Status := "" } } (fun s kv =>
    if kv.1 = "data" then do
      let v ← decodeEndpointToggleStatusData s.Data kv.2
      pure { s with Data := v }
    else pure s)

/-- Decode `EndpointResponse`. -/
def decodeEndpointResponse (j : Json) : Except String EndpointResponse :=
  decodeObj j { Status := false, Message := "" } (fun s kv =>
    if kv.1 = "status" then do
      let v ← decodeBool s.Status kv.2
      pure { s with Status := v }
    else if kv.1 = "message" then do
      let v ← decodeString s.Message kv.2
      pure { s with Message := v }
    else pure s)

/-- Decode the `data` struct of `CreateEndpointResponse`. -/
def decodeCreateEndpointResponseData (cur : CreateEndpointResponseData) (j : Json) :
    Except String CreateEndpointResponseData :=
  decodeObj j cur (fun s kv =>
    if kv.1 = "uid" then do
      let v ← decodeString s.Uid kv.2
      pure { s with Uid := v }
    else if kv.1 = "status" then do
      let v ← decodeString s.Status kv.2
      pure { s with Status := v }
    else pure s)

/-- Decode `CreateEndpointResponse`. -/
def decodeCreateEndpointResponse (j : Json) : Except String CreateEndpointResponse :=
  decodeObj j { Status := false, Message := "", Data := { Uid := "", Status := "" } }
    (fun s kv =>
      if kv.1 = "status" then do
        let v ← decodeBool s.Status kv.2
        pure { s with Status := v }
      else if kv.1 = "message" then do
        let v ← decodeString s.Message kv.2
        pure { s with Message := v }
      else if kv.1 = "data" then do
        let v ← decodeCreateEndpointResponseData s.Data kv.2
        pure { s with Data := v }
      else pure s)

/-- Decode `EndpointData`. -/
def decodeEndpointData (cur : EndpointData) (j : Json) : Except String EndpointData :=
  decodeObj j cur (fun s kv =>
    if kv.1 = "slack_webhook_url" then do
      let v ← decodeString s.SlackWebhookURL kv.2
      pure { s with SlackWebhookURL := v }
    else if kv.1 = "status" then do
      let v ← decodeString s.Status kv.2
      pure { s with Status := v }
    else if kv.1 = "support_email" then do
      let v ← decodeString s.SupportEmail kv.2
      pure { s with SupportEmail := v }
    else if kv.1 = "uid" then do
      let v ← decodeString s.UID kv.2
      pure { s with UID := v }
    else if kv.1 = "updated_at" then do
      let v ← decodeString s.UpdatedAt kv.2
      pure { s with UpdatedAt := v }
    else if kv.1 = "url" then do
      let v ← decodeString s.URL kv.2
      pure { s with URL := v }
    else if kv.1 = "created_at" then do
      let v ← decodeString s.CreatedAt kv.2
      pure { s with CreatedAt := v }
    else if kv.1 = "deleted_at" then do
      let v ← decodeOptString s.DeletedAt kv.2
      pure { s with DeletedAt := v }
    else if kv.1 = "description" then do
      let v ← decodeString s.Description kv.2
      pure { s with Description := v }
    else if kv.1 = "events" then do
      let v ← decodeInt s.Events kv.2
      pure { s with Events := v }
    else if kv.1 = "http_timeout" then do
      let v ← decodeInt s.HttpTimeout kv.2
      pure { s with HttpTimeout := v }
    else if kv.1 = "name" then do
      let v ← decodeString s.Name kv.2
      pure { s with Name := v }
    else if kv.1 = "owner_id" then do
      let v ← decodeString s.OwnerID kv.2
      pure { s with OwnerID := v }
    else if kv.1 = "project_id" then do
      let v ← decodeString s.ProjectID kv.2
      pure { s with ProjectID := v }
    else if kv.1 = "rate_limit" then do
      let v ← decodeInt s.RateLimit kv.2
      pure { s with RateLimit := v }
    else if kv.1 = "rate_limit_duration" then do
      let v ← decodeInt s.RateLimitDuration kv.2
      pure { s with RateLimitDuration := v }
    else pure s)

/-- The zero value of `EndpointData`. -/
def EndpointData.zero : EndpointData :=
  { SlackWebhookURL := "", Status := "", SupportEmail := "", UID := "",
    UpdatedAt := "", URL := "", CreatedAt := "", DeletedAt := none,
    Description := "", Events := 0, HttpTimeout := 0, Name := "",
    OwnerID := "", ProjectID := "", RateLimit := 0, RateLimitDuration := 0 }

/-- Decode `Endpoint`. -/
def decodeEndpoint (j : Json) : Except String Endpoint :=
  decodeObj j { Message := "", Status := false, Data := EndpointData.zero }
    (fun s kv =>
      if kv.1 = "message" then do
        let v ← decodeString s.Message kv.2
        pure { s with Message := v }
      else if kv.1 = "status" then do
        let v ← decodeBool s.Status kv.2
        pure { s with Status := v }
      else if kv.1 = "data" then do
        let v ← decodeEndpointData s.Data kv.2
        pure { s with Data := v }
      else pure s)

/-- The zero value of `EventDeliveryContent`. -/
def EventDeliveryContent.zero : EventDeliveryContent :=
  { CreatedAt := "", Status := "", EventMetadata := { EventType := "" },
    Metadata := { NumTrials := 0, RetryLimit := 0 } }

/-- Decode `EventDeliveryContent`. -/
def decodeEventDeliveryContent (cur : EventDeliveryContent) (j : Json) :
    Except String EventDeliveryContent :=
  decodeObj j cur (fun s kv =>
    if kv.1 = "created_at" then do
      let v ← decodeString s.CreatedAt kv.2
      pure { s with CreatedAt := v }
    else if kv.1 = "status" then do
      let v ← decodeString s.Status kv.2
      pure { s with Status := v }
    else if kv.1 = "event_metadata" then do
      let v ← decodeObj kv.2 s.EventMetadata (fun t lw =>
        if lw.1 = "event_type" then do
          let w ← decodeString t.EventType lw.2
          pure { t with EventType := w }
        else pure t)
      pure { s with EventMetadata := v }
    else if kv.1 = "metadata" then do
      let v ← decodeObj kv.2 s.Metadata (fun t lw =>
        if lw.1 = "num_trials" then do
          let w ← decodeInt t.NumTrials lw.2
          pure { t with NumTrials := w }
        else if lw.1 = "retry_limit" then do
          let w ← decodeInt t.RetryLimit lw.2
          pure { t with RetryLimit := w }
        else pure t)
      pure { s with Metadata := v }
    else pure s)

/-- Decode a JSON array into a slice of `EventDeliveryContent`, each element
decoded into a fresh zero value. -/
def decodeEventDeliveryContentList (cur : List EventDeliveryContent) (j : Json) :
    Except String (List EventDeliveryContent) :=
  match j with
  | .arr xs => xs.mapM (decodeEventDeliveryContent EventDeliveryContent.zero)
  | .null => .ok cur
  | _ => .error "json: cannot unmarshal value into field of type slice"

/-- Decode `EventDelivery`. -/
def decodeEventDelivery (j : Json) : Except String EventDelivery :=
  decodeObj j { Message := "", Status := false, Data := { Content := [] } }
    (fun s kv =>
      if kv.1 = "message" then do
        let v ← decodeString s.Message kv.2
        pure { s with Message := v }
      else if kv.1 = "status" then do
        let v ← decodeBool s.Status kv.2
        pure { s with Status := v }
      else if kv.1 = "data" then do
        let v ← decodeObj kv.2 s.Data (fun t lw =>
          if lw.1 = "content" then do
            let w ← decodeEventDeliveryContentList t.Content lw.2
            pure { t with Content := w }
          else pure t)
        pure { s with Data := v }
      else pure s)

/-- Run a struct decoder on a body string: parse one JSON value, then decode
it (`json.NewDecoder(resp.Body).Decode(&v)`). -/
def decodeBody (f : Json → Except String α) (body : String) : Except String α :=
  match parseJsonString body with
  | none => .error "json: invalid input"
  | some j => f j

/-! ## Request bodies (`encoding/json` marshalling of the write-side
structs, fields in declaration order with their tags) -/

/-- `json.Marshal` of `UpsertEndpointParams`. -/
def marshalUpsertEndpointParams (p : UpsertEndpointParams) : Json :=
  .obj [("name", .str p.Name), ("url", .str p.URL),
    ("advanced_signatures", .bool p.AdvancedSignatures),
    ("appID", .str p.AppID), ("description", .str p.Description),
    ("http_timeout", .num p.HttpTimeout), ("is_disabled", .bool p.IsDisabled),
    ("owner_id", .str p.OwnerID), ("rate_limit", .num p.RateLimit),
    ("rate_limit_duration", .num p.RateLimitDuration),
    ("secret", .str p.Secret), ("slack_webhook_url", .str p.SlackWebhookURL),
    ("support_email", .str p.SupportEmail)]

/-- `json.Marshal` of `WebhookData` (the `Data` field of the wrapper) — this
is what `CreateEvent` sends. -/
def marshalWebhookData (d : WebhookData) : Json :=
  .obj [("data", d.Data), ("event_type", .str d.EventType),
    ("endpoint_id", .str d.EndpointID)]

/-- What `json.Marshal` of the whole `Webhook` wrapper would produce (field
names capitalized, no tags; the headers map as an object of string arrays) —
the code does NOT send this; it exists to witness the difference. -/
def marshalWebhook (w : Webhook) : Json :=
  .obj [("Data", marshalWebhookData w.Data),
    ("Headers",
      match w.Headers with
      | none => .null
      | some h => .obj (h.map (fun p => (p.1, .arr (p.2.map .str)))))]

/-! ## Request builders, one per operation (`http.NewRequest` plus the
header and query mutations the source performs, in source order).
`fmt.Sprint` on strings is concatenation; `json.Encoder.Encode` appends a
newline to the marshalled value. -/

/-- The request `GetEndpointEventDeliveries` issues. -/
def GetEndpointEventDeliveriesRequest (we : webhookData) (projectID endpointID : String)
    (itemsPerPage : Int) : Request :=
  { method := "GET",
    url := we.url ++ "/api/v1/projects/" ++ projectID ++ "/eventdeliveries",
    rawQuery := urlValuesEncode
      [("endpointId", [endpointID]), ("perPage", [toString itemsPerPage])],
    header := Header.set [] "Authorization" ("Bearer " ++ we.key),
    body := none }

/-- The request `TogglePause` issues. -/
def TogglePauseRequest (we : webhookData) (projectID endpointID : String) : Request :=
  { method := "PUT",
    url := we.url ++ "/api/v1/projects/" ++ projectID ++ "/endpoints/" ++ endpointID
      ++ "/pause",
    rawQuery := "",
    header := Header.set [] "Authorization" ("Bearer " ++ we.key),
    body := none }

/-- The request `CreateEndpoint` issues. -/
def CreateEndpointRequest (we : webhookData) (projectID : String)
    (params : UpsertEndpointParams) : Request :=
  { method := "POST",
    url := we.url ++ "/api/v1/projects/" ++ projectID ++ "/endpoints",
    rawQuery := "",
    header := Header.set (Header.set [] "Authorization" ("Bearer " ++ we.key))
      "Content-Type" "application/json",
    body := some (jsonRender (marshalUpsertEndpointParams params) ++ "\n") }

/-- The request `UpdateEndpoint` issues. -/
def UpdateEndpointRequest (we : webhookData) (projectID endpointID : String)
    (params : UpsertEndpointParams) : Request :=
  { method := "PUT",
    url := we.url ++ "/api/v1/projects/" ++ projectID ++ "/endpoints/" ++ endpointID,
    rawQuery := "",
    header := Header.set (Header.set [] "Authorization" ("Bearer " ++ we.key))
      "Content-Type" "application/json",
    body := some (jsonRender (marshalUpsertEndpointParams params) ++ "\n") }

/-- The request `DeleteEndpoint` issues. -/
def DeleteEndpointRequest (we : webhookData) (projectID endpointID : String) : Request :=
  { method := "DELETE",
    url := we.url ++ "/api/v1/projects/" ++ projectID ++ "/endpoints/" ++ endpointID,
    rawQuery := "",
    header := Header.set [] "Authorization" ("Bearer " ++ we.key),
    body := none }

/-- The request `GetEndpoint` issues. -/
def GetEndpointRequest (we : webhookData) (projectID endpointID : String) : Request :=
  { method := "GET",
    url := we.url ++ "/api/v1/projects/" ++ projectID ++ "/endpoints/" ++ endpointID,
    rawQuery := "",
    header := Header.set [] "Authorization" ("Bearer " ++ we.key),
    body := none }

/-- The header map of the request `CreateEvent` issues: when the caller's
`Headers` map is non-nil it is installed directly (`req.Header =
map[string][]string(webhookData.Headers)`), then `Authorization` and
`Content-Type` are forced with `Header.Set`. -/
def CreateEventHeader (key : String) (callerHeaders : Option Header) : Header :=
  Header.set
    (Header.set (callerHeaders.getD []) "Authorization" ("Bearer " ++ key))
    "Content-Type" "application/json"

/-- The request `CreateEvent` issues for a non-nil webhook: the body is the
marshalled `Data` field only (`json.Marshal(webhookData.Data)`). -/
def CreateEventRequest (we : webhookData) (projectID : String) (w : Webhook) : Request :=
  { method := "POST",
    url := we.url ++ "/api/v1/projects/" ++ projectID ++ "/events",
    rawQuery := "",
    header := CreateEventHeader we.key w.Headers,
    body := some (jsonRender (marshalWebhookData w.Data)) }

/-- In Go, installing the caller's map and then calling `Header.Set` mutates
the caller's own map in place; the map the caller observes after the call is
therefore the request's final header map (and `nil` stays `nil`). -/
def CreateEventCallerHeadersAfter (we : webhookData) (w : Webhook) : Option Header :=
  match w.Headers with
  | none => none
  | some h => some (CreateEventHeader we.key (some h))

/-! ## Response handlers, one per operation: the code each operation runs
once a response has arrived (status check in source order, then body
decoding). -/

/-- `GetEndpoint` after `client.Do`: any status other than 200 is a
status-code error; then the body is decoded as `Endpoint`. -/
def GetEndpointHandle (resp : HttpResponse) : Except GoError Endpoint :=
  if resp.statusCode ≠ 200 then .error (.statusCode resp.statusCode)
  else
    match decodeBody decodeEndpoint resp.body with
    | .error m => .error (.decode m)
    | .ok v => .ok v

/-- `GetEndpointEventDeliveries` after `client.Do`: any status other than
200 is a status-code error; then the body is decoded as `EventDelivery`. -/
def GetEndpointEventDeliveriesHandle (resp : HttpResponse) : Except GoError EventDelivery :=
  if resp.statusCode ≠ 200 then .error (.statusCode resp.statusCode)
  else
    match decodeBody decodeEventDelivery resp.body with
    | .error m => .error (.decode m)
    | .ok v => .ok v

/-- `TogglePause` after `client.Do`: status ≥ 300 is a status-code error;
then the body is decoded and only the nested `data.status` string is
returned. -/
def TogglePauseHandle (resp : HttpResponse) : Except GoError String :=
  if 300 ≤ resp.statusCode then .error (.statusCode resp.statusCode)
  else
    match decodeBody decodeEndpointToggleStatus resp.body with
    | .error m => .error (.decode m)
    | .ok v => .ok v.Data.Status

/-- `CreateEndpoint` after `client.Do`: only status strictly greater than
400 is a status-code error; otherwise the body is decoded as
`CreateEndpointResponse`. -/
def CreateEndpointHandle (resp : HttpResponse) : Except GoError CreateEndpointResponse :=
  if 400 < resp.statusCode then .error (.statusCode resp.statusCode)
  else
    match decodeBody decodeCreateEndpointResponse resp.body with
    | .error m => .error (.decode m)
    | .ok v => .ok v

/-- `UpdateEndpoint` after `client.Do`: only status strictly greater than
400 is a status-code error; otherwise the body is decoded as
`EndpointResponse`. -/
def UpdateEndpointHandle (resp : HttpResponse) : Except GoError EndpointResponse :=
  if 400 < resp.statusCode then .error (.statusCode resp.statusCode)
  else
    match decodeBody decodeEndpointResponse resp.body with
    | .error m => .error (.decode m)
    | .ok v => .ok v

/-- `DeleteEndpoint` after `client.Do`: status ≥ 300 is a status-code error;
then the body is decoded as `EndpointResponse`. -/
def DeleteEndpointHandle (resp : HttpResponse) : Except GoError EndpointResponse :=
  if 300 ≤ resp.statusCode then .error (.statusCode resp.statusCode)
  else
    match decodeBody decodeEndpointResponse resp.body with
    | .error m => .error (.decode m)
    | .ok v => .ok v

/-! ## Full operations over a network oracle -/

/-- The observable effects of a call, recorded in order: issuing the network
request, reading the response body, and logging. -/
inductive Effect where
  | netCall : Request → Effect
  | bodyRead : Effect
  | logInfo : String → Effect
deriving Repr, DecidableEq

/-- `GetEndpoint`, end to end: build the request, send it, handle the
response; a transport failure from `client.Do` is returned as-is. -/
def GetEndpoint (we : webhookData) (projectID endpointID : String)
    (net : Request → Except String HttpResponse) : Except GoError Endpoint :=
  match net (GetEndpointRequest we projectID endpointID) with
  | .error e => .error (.transport e)
  | .ok resp => GetEndpointHandle resp

/-- `GetEndpointEventDeliveries`, end to end. -/
def GetEndpointEventDeliveries (we : webhookData) (projectID endpointID : String)
    (itemsPerPage : Int) (net : Request → Except String HttpResponse) :
    Except GoError EventDelivery :=
  match net (GetEndpointEventDeliveriesRequest we projectID endpointID itemsPerPage) with
  | .error e => .error (.transport e)
  | .ok resp => GetEndpointEventDeliveriesHandle resp

/-- `TogglePause`, end to end. -/
def TogglePause (we : webhookData) (projectID endpointID : String)
    (net : Request → Except String HttpResponse) : Except GoError String :=
  match net (TogglePauseRequest we projectID endpointID) with
  | .error e => .error (.transport e)
  | .ok resp => TogglePauseHandle resp

/-- `CreateEndpoint`, end to end. -/
def CreateEndpoint (we : webhookData) (projectID : String)
    (params : UpsertEndpointParams) (net : Request → Except String HttpResponse) :
    Except GoError CreateEndpointResponse :=
  match net (CreateEndpointRequest we projectID params) with
  | .error e => .error (.transport e)
  | .ok resp => CreateEndpointHandle resp

/-- `UpdateEndpoint`, end to end. -/
def UpdateEndpoint (we : webhookData) (projectID endpointID : String)
    (params : UpsertEndpointParams) (net : Request → Except String HttpResponse) :
    Except GoError EndpointResponse :=
  match net (UpdateEndpointRequest we projectID endpointID params) with
  | .error e => .error (.transport e)
  | .ok resp => UpdateEndpointHandle resp

/-- `DeleteEndpoint`, end to end. -/
def DeleteEndpoint (we : webhookData) (projectID endpointID : String)
    (net : Request → Except String HttpResponse) : Except GoError EndpointResponse :=
  match net (DeleteEndpointRequest we projectID endpointID) with
  | .error e => .error (.transport e)
  | .ok resp => DeleteEndpointHandle resp

/-- `CreateEvent` after `client.Do`: the body is read once with
`io.ReadAll`; on a successful read the body is logged, a failed read is
silently ignored; then status ≥ 400 is an error embedding the status code
and anything below succeeds with no decoded value.  Returns the effect
trace of the response phase alongside the result. -/
def CreateEventHandle (resp : EventResponse) : List Effect × Except GoError Unit :=
  (Effect.bodyRead ::
      (match resp.bodyRead with
       | .ok b => [Effect.logInfo b]
       | .error _ => []),
    if 400 ≤ resp.statusCode then .error (.eventStatus resp.statusCode) else .ok ())

/-- `CreateEvent`, end to end: a nil webhook fails with the precondition
error before any request is built or sent (empty effect trace); otherwise
the request is built, issued, and the response handled. -/
def CreateEvent (we : webhookData) (projectID : String) (wh : Option Webhook)
    (net : Request → Except String EventResponse) : List Effect × Except GoError Unit :=
  match wh with
  | none => ([], .error .undefinedPayload)
  | some w =>
      let req := CreateEventRequest we projectID w
      match net req with
      | .error e => ([.netCall req], .error (.transport e))
      | .ok resp =>
          let r := CreateEventHandle resp
          (Effect.netCall req :: r.1, r.2)

/-- A sample webhook with a caller header map that tries to set the two
forced header names, used to exhibit concrete behaviour. -/
def sampleWebhook : Webhook :=
  ⟨⟨Json.obj [("amount", Json.num 5)], "invoice.paid", "e1"⟩,
    some [("Authorization", ["caller-token"]),
      ("Content-Type", ["text/plain"]), ("X-Custom", ["1"])]⟩

/-! ## Helper lemmas -/

/-- A network-call effect is never equal to the body-read effect. -/
theorem netCall_beq_bodyRead (r : Request) :
    (Effect.netCall r == Effect.bodyRead) = false := rfl

/-- A log effect is never equal to the body-read effect. -/
theorem logInfo_beq_bodyRead (s : String) :
    (Effect.logInfo s == Effect.bodyRead) = false := rfl

/-- `Authorization` is already a canonical MIME header key. -/
theorem canonical_authorization :
    canonicalMIMEHeaderKey "Authorization" = "Authorization" := by decide

/-- `Content-Type` is already a canonical MIME header key. -/
theorem canonical_content_type :
    canonicalMIMEHeaderKey "Content-Type" = "Content-Type" := by decide

/-- Looking up a key just set returns exactly the value set. -/
theorem Header.values_set (h : Header) (k v : String) :
    Header.values (Header.set h k v) k = [v] := by
  simp [Header.set, Header.values]

/-- `find?` for one key is unchanged by filtering out a different key. -/
theorem find_filter_ne (l : Header) (a b : String) (hne : a ≠ b) :
    (l.filter (fun p => ¬ (p.1 = b))).find? (fun p => p.1 = a) =
      l.find? (fun p => p.1 = a) := by
  induction l with
  | nil => rfl
  | cons x xs ih =>
      simp only [List.filter_cons, List.find?_cons]
      cases hb : decide (x.1 = b) with
      | true =>
          have hxb : x.1 = b := of_decide_eq_true hb
          have hxa : decide (x.1 = a) = false := by
            apply decide_eq_false
            rw [hxb]
            exact fun hh => hne hh.symm
          simp only [decide_not, hb, Bool.not_true, Bool.false_eq_true, if_false, hxa]
          simpa only [decide_not] using ih
      | false =>
          simp only [decide_not, hb, Bool.not_false, if_true, List.find?_cons]
          cases ha : decide (x.1 = a) with
          | true => simp only [ha]
          | false =>
              simp only [ha]
              simpa only [decide_not] using ih

/-- Setting one key does not change the lookup of a key with a different
canonical form. -/
theorem Header.values_set_ne (h : Header) (k1 k2 v : String)
    (hne : canonicalMIMEHeaderKey k1 ≠ canonicalMIMEHeaderKey k2) :
    Header.values (Header.set h k2 v) k1 = Header.values h k1 := by
  have hd : decide (canonicalMIMEHeaderKey k2 = canonicalMIMEHeaderKey k1) = false :=
    decide_eq_false (fun hh => hne hh.symm)
  simp only [Header.set, Header.values, List.find?_cons, hd]
  rw [find_filter_ne _ _ _ hne]

/-- After both keys have been filtered out, nothing with either key is
left. -/
theorem filter_two_keys_gone (h : Header) (a b : String) :
    ((h.filter (fun p => ¬ (p.1 = a))).filter (fun p => ¬ (p.1 = b))).filter
        (fun p => p.1 = a ∨ p.1 = b) = [] := by
  induction h with
  | nil => rfl
  | cons x xs ih =>
      simp only [List.filter_cons]
      cases ha : decide (x.1 = a) with
      | true =>
          simp only [decide_not, ha, Bool.not_true, Bool.false_eq_true, if_false]
          simpa only [decide_not] using ih
      | false =>
          simp only [decide_not, ha, Bool.not_false, if_true, List.filter_cons]
          cases hb : decide (x.1 = b) with
          | true =>
              simp only [hb, Bool.not_true, Bool.false_eq_true, if_false]
              simpa only [decide_not] using ih
          | false =>
              simp only [hb, Bool.not_false, if_true, List.filter_cons]
              have hor : decide (x.1 = a ∨ x.1 = b) = false := by
                apply decide_eq_false
                rintro (hh | hh)
                · exact absurd (decide_eq_true hh) (by simp [ha])
                · exact absurd (decide_eq_true hh) (by simp [hb])
              simp only [hor, Bool.false_eq_true, if_false]
              simpa only [decide_not] using ih

/-! ## Claim theorems -/

/-- C3: for every project identifier, `CreateEvent` with a nil webhook
payload returns the "webhook data undefined" precondition error immediately,
with an empty effect trace — no request is constructed and no network call
is issued. -/
theorem createEvent_nil_payload_no_network (we : webhookData) (projectID : String)
    (net : Request → Except String EventResponse) :
    CreateEvent we projectID none net = ([], .error .undefinedPayload) ∧
    GoError.undefinedPayload.message = "webhook data undefined" :=
  ⟨rfl, rfl⟩

/-- C4: for every caller-supplied header map passed to `CreateEvent` —
including maps holding entries named `Authorization` or `Content-Type` —
the outgoing request's `Authorization` header is exactly
`Bearer <key>` and its `Content-Type` header is exactly
`application/json`, and the only entries under those two names in the
outgoing header map are the forced ones: caller values for those names never
appear. -/
theorem createEvent_forced_headers (we : webhookData) (projectID : String) (w : Webhook) :
    (CreateEventRequest we projectID w).header.values "Authorization" =
      ["Bearer " ++ we.key] ∧
    (CreateEventRequest we projectID w).header.values "Content-Type" =
      ["application/json"] ∧
    (CreateEventRequest we projectID w).header.filter
        (fun p => p.1 = "Authorization" ∨ p.1 = "Content-Type") =
      [("Content-Type", ["application/json"]), ("Authorization", ["Bearer " ++ we.key])] := by
  have hne : canonicalMIMEHeaderKey "Authorization" ≠ canonicalMIMEHeaderKey "Content-Type" := by
    decide
  refine ⟨?_, ?_, ?_⟩
  · show Header.values (CreateEventHeader we.key w.Headers) "Authorization" = _
    unfold CreateEventHeader
    rw [Header.values_set_ne _ _ _ _ hne, Header.values_set]
  · show Header.values (CreateEventHeader we.key w.Headers) "Content-Type" = _
    unfold CreateEventHeader
    rw [Header.values_set]
  · show (CreateEventHeader we.key w.Headers).filter _ = _
    unfold CreateEventHeader
    simp only [Header.set, canonical_authorization, canonical_content_type]
    simp [List.filter_cons, filter_two_keys_gone]
    exact fun a b _ h1 h2 => h1.resolve_right h2

/-- C5: for every response received by `CreateEvent`, regardless of status
code, the body is read exactly once (one body-read effect in the response
trace), and the outcome depends only on the status code — a failed body
read does not change it.  The same body-read count holds for the full
operation over any network oracle that returns a response. -/
theorem createEvent_body_read_once (we : webhookData) (projectID : String) (w : Webhook)
    (net : Request → EventResponse) (resp : EventResponse) :
    ((CreateEventHandle resp).1.count Effect.bodyRead = 1 ∧
      (CreateEventHandle resp).2 =
        (if 400 ≤ resp.statusCode then Except.error (GoError.eventStatus resp.statusCode)
         else Except.ok ())) ∧
    (CreateEvent we projectID (some w) (fun r => .ok (net r))).1.count Effect.bodyRead = 1 := by
  have base : ∀ r : EventResponse, (CreateEventHandle r).1.count Effect.bodyRead = 1 := by
    intro r
    cases hb : r.bodyRead <;>
      simp [CreateEventHandle, hb, List.count_cons, logInfo_beq_bodyRead]
  refine ⟨⟨base resp, rfl⟩, ?_⟩
  show ((CreateEvent we projectID (some w) (fun r => .ok (net r))).1).count Effect.bodyRead = 1
  simp only [CreateEvent]
  rw [List.count_cons]
  rw [netCall_beq_bodyRead]
  simpa using base (net (CreateEventRequest we projectID w))

/-- C8: `GetEndpointEventDeliveries` builds its query string from the map
binding `endpointId` to the literal endpoint identifier and `perPage` to the
page size formatted base 10; the encoded query is
`endpointId=<esc id>&perPage=<esc page>`, and for project `p1`, endpoint
`e1`, page size 50 it is exactly `endpointId=e1&perPage=50`. -/
theorem getEndpointEventDeliveries_query (we : webhookData)
    (projectID endpointID : String) (itemsPerPage : Int) :
    (GetEndpointEventDeliveriesRequest we projectID endpointID itemsPerPage).rawQuery =
      "endpointId=" ++ queryEscape endpointID ++ "&perPage=" ++
        queryEscape (toString itemsPerPage) ∧
    valuesGet [("endpointId", [endpointID]), ("perPage", [toString itemsPerPage])]
        "endpointId" = [endpointID] ∧
    valuesGet [("endpointId", [endpointID]), ("perPage", [toString itemsPerPage])]
        "perPage" = [toString itemsPerPage] ∧
    (GetEndpointEventDeliveriesRequest ⟨"https://api", "k"⟩ "p1" "e1" 50).rawQuery =
      "endpointId=e1&perPage=50" := by
  have h1 : queryEscape "endpointId" = "endpointId" := by decide
  have h2 : queryEscape "perPage" = "perPage" := by decide
  refine ⟨?_, by simp [valuesGet], by simp [valuesGet], by decide⟩
  show urlValuesEncode _ = _
  apply String.ext
  simp [urlValuesEncode, sortStrings, insertStringSorted, valuesGet, joinAmp, h1, h2]

/-- C9: every operation of the client sends the `Authorization` header set
exactly to `Bearer <key>` for the key the client was constructed with; for
a client built with key `secret123` the value is `Bearer secret123`. -/
theorem authorization_header_all_operations (we : webhookData)
    (projectID endpointID : String) (params : UpsertEndpointParams)
    (itemsPerPage : Int) (w : Webhook) :
    (GetEndpointRequest we projectID endpointID).header.values "Authorization" =
      ["Bearer " ++ we.key] ∧
    (CreateEndpointRequest we projectID params).header.values "Authorization" =
      ["Bearer " ++ we.key] ∧
    (UpdateEndpointRequest we projectID endpointID params).header.values "Authorization" =
      ["Bearer " ++ we.key] ∧
    (DeleteEndpointRequest we projectID endpointID).header.values "Authorization" =
      ["Bearer " ++ we.key] ∧
    (TogglePauseRequest we projectID endpointID).header.values "Authorization" =
      ["Bearer " ++ we.key] ∧
    (CreateEventRequest we projectID w).header.values "Authorization" =
      ["Bearer " ++ we.key] ∧
    (GetEndpointEventDeliveriesRequest we projectID endpointID itemsPerPage).header.values
        "Authorization" = ["Bearer " ++ we.key] ∧
    (GetEndpointRequest ⟨"https://api", "secret123"⟩ "p" "e").header.values
        "Authorization" = ["Bearer secret123"] := by
  have hne : canonicalMIMEHeaderKey "Authorization" ≠ canonicalMIMEHeaderKey "Content-Type" := by
    decide
  refine ⟨Header.values_set _ _ _, ?_, ?_, Header.values_set _ _ _,
    Header.values_set _ _ _, ?_, Header.values_set _ _ _, by decide⟩
  · show Header.values (Header.set (Header.set [] "Authorization" ("Bearer " ++ we.key))
        "Content-Type" "application/json") "Authorization" = _
    rw [Header.values_set_ne _ _ _ _ hne, Header.values_set]
  · show Header.values (Header.set (Header.set [] "Authorization" ("Bearer " ++ we.key))
        "Content-Type" "application/json") "Authorization" = _
    rw [Header.values_set_ne _ _ _ _ hne, Header.values_set]
  · show Header.values (CreateEventHeader we.key w.Headers) "Authorization" = _
    unfold CreateEventHeader
    rw [Header.values_set_ne _ _ _ _ hne, Header.values_set]

/-- C10: when `CreateEvent` is called with a payload whose `Headers` map is
non-nil, that caller-owned map is installed as the request's header map and
mutated in place: after the call the caller's map holds the forced
`Authorization` and `Content-Type` entries, overwriting whatever the caller
had stored under those names. -/
theorem createEvent_mutates_caller_headers (we : webhookData) (w : Webhook) (h : Header)
    (hw : w.Headers = some h) :
    CreateEventCallerHeadersAfter we w =
      some (Header.set (Header.set h "Authorization" ("Bearer " ++ we.key))
        "Content-Type" "application/json") ∧
    ∃ h2, CreateEventCallerHeadersAfter we w = some h2 ∧
      h2.values "Authorization" = ["Bearer " ++ we.key] ∧
      h2.values "Content-Type" = ["application/json"] := by
  have hne : canonicalMIMEHeaderKey "Authorization" ≠ canonicalMIMEHeaderKey "Content-Type" := by
    decide
  have hmain : CreateEventCallerHeadersAfter we w =
      some (Header.set (Header.set h "Authorization" ("Bearer " ++ we.key))
        "Content-Type" "application/json") := by
    simp [CreateEventCallerHeadersAfter, hw, CreateEventHeader]
  refine ⟨hmain, _, hmain, ?_, Header.values_set _ _ _⟩
  rw [Header.values_set_ne _ _ _ _ hne, Header.values_set]

/-- Witness for C10: a concrete caller map storing its own `Authorization`
and `Content-Type` values is observed, after the call, with both entries
overwritten by the forced values. -/
theorem createEvent_mutates_caller_headers_witness :
    (sampleWebhook.Headers = some [("Authorization", ["caller-token"]),
      ("Content-Type", ["text/plain"]), ("X-Custom", ["1"])]) ∧
    (∃ h2, CreateEventCallerHeadersAfter ⟨"https://api", "k"⟩ sampleWebhook = some h2 ∧
      h2.values "Authorization" = ["Bearer " ++ "k"] ∧
      h2.values "Content-Type" = ["application/json"]) :=
  ⟨rfl, (createEvent_mutates_caller_headers ⟨"https://api", "k"⟩ sampleWebhook _ rfl).2⟩

/-- C1: `CreateEndpoint` and `UpdateEndpoint` reject a response with a
status-code error exactly when the status is strictly greater than 400: a
status-400 response is not rejected — its body is decoded and returned as a
normal result — while status 401 is rejected. -/
theorem createUpdate_status400_boundary (resp : HttpResponse) :
    (400 < resp.statusCode →
      CreateEndpointHandle resp = .error (.statusCode resp.statusCode) ∧
      UpdateEndpointHandle resp = .error (.statusCode resp.statusCode)) ∧
    (resp.statusCode ≤ 400 →
      CreateEndpointHandle resp =
        (match decodeBody decodeCreateEndpointResponse resp.body with
         | .error m => Except.error (GoError.decode m)
         | .ok v => Except.ok v) ∧
      UpdateEndpointHandle resp =
        (match decodeBody decodeEndpointResponse resp.body with
         | .error m => Except.error (GoError.decode m)
         | .ok v => Except.ok v)) ∧
    ((∃ c, CreateEndpointHandle resp = .error (.statusCode c)) ↔ 400 < resp.statusCode) ∧
    ((∃ c, UpdateEndpointHandle resp = .error (.statusCode c)) ↔ 400 < resp.statusCode) := by
  by_cases h : 400 < resp.statusCode
  · refine ⟨fun _ => ⟨by simp [CreateEndpointHandle, h], by simp [UpdateEndpointHandle, h]⟩,
      fun hle => absurd h (Nat.not_lt.mpr hle), ?_, ?_⟩
    · exact ⟨fun _ => h, fun _ => ⟨resp.statusCode, by simp [CreateEndpointHandle, h]⟩⟩
    · exact ⟨fun _ => h, fun _ => ⟨resp.statusCode, by simp [UpdateEndpointHandle, h]⟩⟩
  · refine ⟨fun hc => absurd hc h,
      fun _ => ⟨by simp [CreateEndpointHandle, h], by simp [UpdateEndpointHandle, h]⟩, ?_, ?_⟩
    · constructor
      · rintro ⟨c, hc⟩
        rcases hd : decodeBody decodeCreateEndpointResponse resp.body with m | v <;>
          simp [CreateEndpointHandle, h, hd] at hc
      · intro hgt
        exact absurd hgt h
    · constructor
      · rintro ⟨c, hc⟩
        rcases hd : decodeBody decodeEndpointResponse resp.body with m | v <;>
          simp [UpdateEndpointHandle, h, hd] at hc
      · intro hgt
        exact absurd hgt h

/-- Witness for C1: a literal status-400 response with a decodable body is
returned as a decoded result, and a status-401 response is rejected with
the status-code error, for both operations. -/
theorem createUpdate_status400_boundary_witness :
    ((400 : Nat) ≤ 400 ∧
      CreateEndpointHandle
          ⟨400, "\x7b\"status\":false,\"message\":\"endpoint exists\",\"data\":\x7b\"uid\":\"u1\",\"status\":\"inactive\"\x7d\x7d"⟩ =
        Except.ok ⟨false, "endpoint exists", ⟨"u1", "inactive"⟩⟩ ∧
      UpdateEndpointHandle ⟨400, "\x7b\"status\":false,\"message\":\"bad\"\x7d"⟩ =
        Except.ok ⟨false, "bad"⟩) ∧
    (400 < 401 ∧
      CreateEndpointHandle ⟨401, "unauthorized"⟩ = .error (.statusCode 401) ∧
      UpdateEndpointHandle ⟨401, "unauthorized"⟩ = .error (.statusCode 401)) := by
  have h1 := (createUpdate_status400_boundary
      ⟨400, "\x7b\"status\":false,\"message\":\"endpoint exists\",\"data\":\x7b\"uid\":\"u1\",\"status\":\"inactive\"\x7d\x7d"⟩).2.1
    (by decide)
  have h2 := (createUpdate_status400_boundary
      ⟨400, "\x7b\"status\":false,\"message\":\"bad\"\x7d"⟩).2.1 (by decide)
  have h3 := (createUpdate_status400_boundary ⟨401, "unauthorized"⟩).1 (by decide)
  exact ⟨⟨by decide, by rw [h1.1]; decide, by rw [h2.2]; decide⟩, by decide, h3.1, h3.2⟩

/-- Counterexample to C2 as stated: `CreateEvent` is among the listed
operations, yet a response with status 300 (≥ 300) makes it succeed rather
than return a status-code error — its threshold is status ≥ 400. -/
theorem createEvent_status300_counterexample :
    (300 : Nat) ≥ 300 ∧
    (CreateEvent ⟨"https://api", "k"⟩ "p"
        (some ⟨⟨Json.null, "t", "e"⟩, none⟩)
        (fun _ => .ok ⟨300, .ok "redirect body"⟩)).2 = Except.ok () :=
  ⟨by decide, rfl⟩

/-- C2 amended: `GetEndpoint` and `GetEndpointEventDeliveries` return a
status-code error (and no result) for any status other than 200;
`DeleteEndpoint` and `TogglePause` for any status ≥ 300; and `CreateEvent`
returns its status-code error exactly when the status is ≥ 400. -/
theorem status_thresholds_amended (resp : HttpResponse) (eresp : EventResponse) :
    (resp.statusCode ≠ 200 →
      GetEndpointHandle resp = .error (.statusCode resp.statusCode) ∧
      GetEndpointEventDeliveriesHandle resp = .error (.statusCode resp.statusCode)) ∧
    (300 ≤ resp.statusCode →
      DeleteEndpointHandle resp = .error (.statusCode resp.statusCode) ∧
      TogglePauseHandle resp = .error (.statusCode resp.statusCode)) ∧
    ((CreateEventHandle eresp).2 = .error (.eventStatus eresp.statusCode) ↔
      400 ≤ eresp.statusCode) := by
  refine ⟨fun hne => ⟨by simp [GetEndpointHandle, hne],
      by simp [GetEndpointEventDeliveriesHandle, hne]⟩,
    fun hge => ⟨by simp [DeleteEndpointHandle, hge], by simp [TogglePauseHandle, hge]⟩, ?_⟩
  constructor
  · intro he
    by_contra hge
    simp [CreateEventHandle, hge] at he
  · intro hge
    simp [CreateEventHandle, hge]

/-- Witness for the amended C2: a single status-301 response is rejected by
all four decode-path operations with the status-code error, and a status-500
response makes `CreateEvent` fail with its status error. -/
theorem status_thresholds_amended_witness :
    ((301 : Nat) ≠ 200 ∧ (300 : Nat) ≤ 301 ∧
      GetEndpointHandle ⟨301, ""⟩ = .error (.statusCode 301) ∧
      GetEndpointEventDeliveriesHandle ⟨301, ""⟩ = .error (.statusCode 301) ∧
      DeleteEndpointHandle ⟨301, ""⟩ = .error (.statusCode 301) ∧
      TogglePauseHandle ⟨301, ""⟩ = .error (.statusCode 301)) ∧
    (400 ≤ 500 ∧
      (CreateEventHandle ⟨500, .ok "server error"⟩).2 = .error (.eventStatus 500)) := by
  have h := status_thresholds_amended ⟨301, ""⟩ ⟨500, .ok "server error"⟩
  exact ⟨⟨by decide, by decide, (h.1 (by decide)).1, (h.1 (by decide)).2,
    (h.2.1 (by decide)).1, (h.2.1 (by decide)).2⟩, by decide, h.2.2.mpr (by decide)⟩

/-- C6: `CreateEvent` serializes only the payload's `Data` field as the
request body (not the enclosing wrapper — shown to differ on a sample);
status ≥ 400 yields an error whose message embeds the numeric status code,
and the success path returns no decoded value. -/
theorem createEvent_serializes_data_only (we : webhookData) (projectID : String)
    (w : Webhook) (resp : EventResponse) :
    (CreateEventRequest we projectID w).body =
      some (jsonRender (marshalWebhookData w.Data)) ∧
    jsonRender (marshalWebhookData sampleWebhook.Data) ≠
      jsonRender (marshalWebhook sampleWebhook) ∧
    (400 ≤ resp.statusCode →
      ∃ e, (CreateEventHandle resp).2 = Except.error e ∧
        e.message = "error status code " ++ toString resp.statusCode) ∧
    (resp.statusCode < 400 → (CreateEventHandle resp).2 = Except.ok ()) := by
  refine ⟨rfl, by decide, ?_, ?_⟩
  · intro hge
    exact ⟨GoError.eventStatus resp.statusCode, by simp [CreateEventHandle, hge], rfl⟩
  · intro hlt
    simp [CreateEventHandle, Nat.not_le.mpr hlt]

/-- Witness for C6: a concrete 404 response — even one whose body read
failed — yields the error with message `error status code 404`, and a 204
response succeeds with no value. -/
theorem createEvent_serializes_data_only_witness :
    ((400 : Nat) ≤ 404 ∧
      ∃ e, (CreateEventHandle ⟨404, Except.error "read failed"⟩).2 = Except.error e ∧
        e.message = "error status code 404") ∧
    ((204 : Nat) < 400 ∧ (CreateEventHandle ⟨204, Except.ok "\x7b\x7d"⟩).2 = Except.ok ()) := by
  have h1 := (createEvent_serializes_data_only ⟨"https://api", "k"⟩ "p" sampleWebhook
      ⟨404, Except.error "read failed"⟩).2.2.1 (by decide)
  have h2 := (createEvent_serializes_data_only ⟨"https://api", "k"⟩ "p" sampleWebhook
      ⟨204, Except.ok "\x7b\x7d"⟩).2.2.2 (by decide)
  refine ⟨⟨by decide, ?_⟩, by decide, h2⟩
  obtain ⟨e, he, hm⟩ := h1
  exact ⟨e, he, by rw [hm]; decide⟩

/-- C7: whenever the response body decodes successfully (and the status is
accepted), `TogglePause` returns exactly the nested `data.status` string of
the decoded body, discarding every other field; the literal body
with nested status `active` yields `active`, and extra fields are
ignored. -/
theorem togglePause_returns_nested_status (resp : HttpResponse) :
    (∀ t, resp.statusCode < 300 →
      decodeBody decodeEndpointToggleStatus resp.body = .ok t →
      TogglePauseHandle resp = .ok t.Data.Status) ∧
    TogglePauseHandle ⟨200, "\x7b\"data\":\x7b\"status\":\"active\"\x7d\x7d"⟩ =
      .ok "active" ∧
    TogglePauseHandle
        ⟨200, "\x7b\"message\":\"done\",\"data\":\x7b\"status\":\"paused\",\"extra\":1\x7d,\"other\":true\x7d"⟩ =
      .ok "paused" := by
  refine ⟨?_, by decide, by decide⟩
  intro t hlt hd
  simp [TogglePauseHandle, Nat.not_le.mpr hlt, hd]

/-- Witness for C7: the universal part applied at the literal body
`\x7b"data":\x7b"status":"active"\x7d\x7d` with its decoded value. -/
theorem togglePause_returns_nested_status_witness :
    (200 : Nat) < 300 ∧
    decodeBody decodeEndpointToggleStatus "\x7b\"data\":\x7b\"status\":\"active\"\x7d\x7d" =
      .ok ⟨⟨"active"⟩⟩ ∧
    TogglePauseHandle ⟨200, "\x7b\"data\":\x7b\"status\":\"active\"\x7d\x7d"⟩ =
      .ok "active" :=
  ⟨by decide, by decide,
    (togglePause_returns_nested_status
        ⟨200, "\x7b\"data\":\x7b\"status\":\"active\"\x7d\x7d"⟩).1
      ⟨⟨"active"⟩⟩ (by decide) (by decide)⟩

end Convoy
